import Mathlib

/-!
Shallow embedding of the keyboard input subsystem of the `bv` repository
(`src/resources/js/keyboard.js`): the `Key` class (per-key up/down state
driven by raw keydown/keyup events) and the `PikaKeyboard` class (the
per-frame aggregator `getInput` with left-priority direction resolution and
edge-triggered `powerHit`), together with the window event-listener
registry used by `subscribe`/`unsubscribe`.

JavaScript mutation is rendered as explicit state passing: methods that
mutate `this` become functions returning the updated structure, and the
ambient `window` listener list is threaded explicitly.
-/

namespace Pika

/-- Kind of a raw window event and of a listener registration:
`keyup` (release) or `keydown` (press). -/
inductive EvKind where
  | keyup
  | keydown
deriving DecidableEq

/-- A raw `KeyboardEvent`: its `code` string and its `defaultPrevented`
flag (set by `event.preventDefault()`). -/
structure KeyEvent where
  code : String
  defaultPrevented : Bool
deriving DecidableEq

/-- `Key` from keyboard.js: `value` is the `KeyboardEvent.code` this key
watches (`none` embeds the JavaScript `null` code of a disabled key, which
compares unequal to every event code under `===`), and `isDown` / `isUp`
are its two state booleans. -/
structure Key where
  value : Option String
  isDown : Bool
  isUp : Bool
deriving DecidableEq

/-- The state part of the `Key` constructor: `this.value = value;
this.isDown = false; this.isUp = true;` (the constructor's `subscribe()`
call touches only the window and is threaded at the device level). -/
def Key.construct (value : Option String) : Key :=
  { value := value, isDown := false, isUp := true }

/-- `Key.downHandler(event)`: if `event.code === this.value` set
`isDown = true`, `isUp = false` and call `event.preventDefault()`;
otherwise a no-op.  Returns the updated key and event. -/
def Key.downHandler (k : Key) (event : KeyEvent) : Key × KeyEvent :=
  if some event.code = k.value then
    ({ k with isDown := true, isUp := false },
     { event with defaultPrevented := true })
  else (k, event)

/-- `Key.upHandler(event)`: if `event.code === this.value` set
`isDown = false`, `isUp = true` and call `event.preventDefault()`;
otherwise a no-op. -/
def Key.upHandler (k : Key) (event : KeyEvent) : Key × KeyEvent :=
  if some event.code = k.value then
    ({ k with isDown := false, isUp := true },
     { event with defaultPrevented := true })
  else (k, event)

/-- One registration in the window's listener list: the event type it was
registered for and the identity of the bound callback.  Each `Key`'s two
listeners are bound once at construction; we identify them by the key's
index in the owning device (`keyId`) plus the kind. -/
structure ListenerEntry where
  kind : EvKind
  keyId : Nat
deriving DecidableEq

/-- The ambient `window` object: the ordered list of registered event
listeners. -/
structure Window where
  listeners : List ListenerEntry
deriving DecidableEq

/-- `window.addEventListener(type, callback)`: per the DOM specification,
appends the listener unless the identical (type, callback) pair is already
registered, in which case it is a no-op. -/
def Window.addEventListener (w : Window) (e : ListenerEntry) : Window :=
  if e ∈ w.listeners then w else { listeners := w.listeners ++ [e] }

/-- `window.removeEventListener(type, callback)`: removes the first (and,
given `addEventListener` deduplication, only) matching registration; a
no-op when none is registered. -/
def Window.removeEventListener (w : Window) (e : ListenerEntry) : Window :=
  { listeners := w.listeners.erase e }

/-- `Key.subscribe()`: registers the keyup listener first, then the
keydown listener.  Returns the updated window together with the trace of
`addEventListener` calls performed, in order. -/
def Key.subscribe (keyId : Nat) (w : Window) : Window × List ListenerEntry :=
  let up : ListenerEntry := ⟨EvKind.keyup, keyId⟩
  let down : ListenerEntry := ⟨EvKind.keydown, keyId⟩
  (((w.addEventListener up).addEventListener down), [up, down])

/-- `Key.unsubscribe()`: removes the keydown listener, then the keyup
listener, and resets the key to `isDown = false`, `isUp = true`. -/
def Key.unsubscribe (k : Key) (keyId : Nat) (w : Window) : Key × Window :=
  let w1 := w.removeEventListener ⟨EvKind.keydown, keyId⟩
  let w2 := w1.removeEventListener ⟨EvKind.keyup, keyId⟩
  ({ k with isDown := false, isUp := true }, w2)

/-- The full `Key` constructor: initialize the state and subscribe both
listeners (discarding the call trace). -/
def Key.new (value : Option String) (keyId : Nat) (w : Window) :
    Key × Window :=
  (Key.construct value, (Key.subscribe keyId w).1)

/-- `PikaKeyboard` from keyboard.js.  The fields `xDirection`,
`yDirection`, `powerHit` come from the `PikaUserInput` base class
(physics.js, not part of the input subsystem's sources); modelled from the
spec: the base capability carries the per-frame snapshot fields
`xDirection`, `yDirection` ∈ {-1,0,1} and `powerHit` (the spec's
`actionTriggered`) ∈ {0,1}. -/
structure PikaKeyboard where
  xDirection : Int
  yDirection : Int
  powerHit : Nat
  powerHitKeyIsDownPrevious : Bool
  leftKey : Key
  rightKey : Key
  upKey : Key
  downKey : Key
  powerHitKey : Key
  downRightKey : Key
deriving DecidableEq

/-- Fixed `keyId`s for the six keys of one device, in construction order. -/
def leftId : Nat := 0

def rightId : Nat := 1

def upId : Nat := 2

def downId : Nat := 3

def powerHitId : Nat := 4

def downRightId : Nat := 5

/-- The `PikaKeyboard` constructor: `powerHitKeyIsDownPrevious = false`,
then the six `new Key(...)` calls in source order, each auto-subscribing
its listeners to the window.  The snapshot fields of the `PikaUserInput`
base (modelled from the spec) start at the neutral 0. -/
def PikaKeyboard.new (left right up down powerHit : String)
    (downRight : Option String) (w : Window) : PikaKeyboard × Window :=
  let (lk, w1) := Key.new (some left) leftId w
  let (rk, w2) := Key.new (some right) rightId w1
  let (uk, w3) := Key.new (some up) upId w2
  let (dk, w4) := Key.new (some down) downId w3
  let (pk, w5) := Key.new (some powerHit) powerHitId w4
  let (drk, w6) := Key.new downRight downRightId w5
  ({ xDirection := 0, yDirection := 0, powerHit := 0,
     powerHitKeyIsDownPrevious := false,
     leftKey := lk, rightKey := rk, upKey := uk, downKey := dk,
     powerHitKey := pk, downRightKey := drk }, w6)

/-- `PikaKeyboard.getInput()`: resolve the horizontal and vertical
directions with left (resp. up) priority, and compute the edge-triggered
`powerHit` from the previous-frame latch.  In the source the combo guard
is `this.downRightKey && this.downRightKey.isDown`; `this.downRightKey`
is always a `Key` object (hence truthy), so the guard reduces to
`downRightKey.isDown`. -/
def PikaKeyboard.getInput (kb : PikaKeyboard) : PikaKeyboard :=
  let xDirection : Int :=
    if kb.leftKey.isDown then -1
    else if kb.rightKey.isDown || kb.downRightKey.isDown then 1
    else 0
  let yDirection : Int :=
    if kb.upKey.isDown then -1
    else if kb.downKey.isDown || kb.downRightKey.isDown then 1
    else 0
  let isDown := kb.powerHitKey.isDown
  let powerHit : Nat :=
    if !kb.powerHitKeyIsDownPrevious && isDown then 1 else 0
  { kb with xDirection := xDirection, yDirection := yDirection,
            powerHit := powerHit, powerHitKeyIsDownPrevious := isDown }

/-- `PikaKeyboard.subscribe()`: forward to the six keys in source order
(key state is untouched; only the window changes). -/
def PikaKeyboard.subscribe (w : Window) : Window :=
  let w1 := (Key.subscribe leftId w).1
  let w2 := (Key.subscribe rightId w1).1
  let w3 := (Key.subscribe upId w2).1
  let w4 := (Key.subscribe downId w3).1
  let w5 := (Key.subscribe powerHitId w4).1
  (Key.subscribe downRightId w5).1

/-- `PikaKeyboard.unsubscribe()`: forward to the six keys in source order;
each key is reset and its two listeners removed. -/
def PikaKeyboard.unsubscribe (kb : PikaKeyboard) (w : Window) :
    PikaKeyboard × Window :=
  let (lk, w1) := kb.leftKey.unsubscribe leftId w
  let (rk, w2) := kb.rightKey.unsubscribe rightId w1
  let (uk, w3) := kb.upKey.unsubscribe upId w2
  let (dk, w4) := kb.downKey.unsubscribe downId w3
  let (pk, w5) := kb.powerHitKey.unsubscribe powerHitId w4
  let (drk, w6) := kb.downRightKey.unsubscribe downRightId w5
  ({ kb with leftKey := lk, rightKey := rk, upKey := uk, downKey := dk,
             powerHitKey := pk, downRightKey := drk }, w6)

/-- Read the device key owned by listener identity `id`; ids other than
0–5 belong to listeners outside this device, for which we return an inert
key that no event matches. -/
def PikaKeyboard.getKey (kb : PikaKeyboard) (id : Nat) : Key :=
  if id = leftId then kb.leftKey
  else if id = rightId then kb.rightKey
  else if id = upId then kb.upKey
  else if id = downId then kb.downKey
  else if id = powerHitId then kb.powerHitKey
  else if id = downRightId then kb.downRightKey
  else Key.construct none

/-- Write back the device key owned by listener identity `id`; ids other
than 0–5 do not touch this device. -/
def PikaKeyboard.setKey (kb : PikaKeyboard) (id : Nat) (k : Key) :
    PikaKeyboard :=
  if id = leftId then { kb with leftKey := k }
  else if id = rightId then { kb with rightKey := k }
  else if id = upId then { kb with upKey := k }
  else if id = downId then { kb with downKey := k }
  else if id = powerHitId then { kb with powerHitKey := k }
  else if id = downRightId then { kb with downRightKey := k }
  else kb

/-- Run one registered listener on the in-flight event: the keydown
listener of key `e.keyId` runs `downHandler`, the keyup listener runs
`upHandler`. -/
def dispatchOne (s : PikaKeyboard × KeyEvent) (e : ListenerEntry) :
    PikaKeyboard × KeyEvent :=
  let k := s.1.getKey e.keyId
  match e.kind with
  | EvKind.keydown =>
      let (k2, ev2) := k.downHandler s.2
      (s.1.setKey e.keyId k2, ev2)
  | EvKind.keyup =>
      let (k2, ev2) := k.upHandler s.2
      (s.1.setKey e.keyId k2, ev2)

/-- Fire one raw window event of kind `kind` carrying code `code`: the
host runtime delivers it to every listener registered for that kind, in
registration order, serially. -/
def dispatch (kind : EvKind) (code : String) (kb : PikaKeyboard)
    (w : Window) : PikaKeyboard × KeyEvent :=
  (w.listeners.filter (fun e => e.kind = kind)).foldl dispatchOne
    (kb, { code := code, defaultPrevented := false })

/-- One operation in a `Key`'s lifecycle: delivery of a keydown event,
delivery of a keyup event, `subscribe()` (which never touches key state),
or `unsubscribe()` (restricted to its key-state effect). -/
inductive KeyOp where
  | press (ev : KeyEvent)
  | release (ev : KeyEvent)
  | sub
  | unsub

/-- Apply one lifecycle operation to a key's state.  `unsub` uses
`Key.unsubscribe`, whose key-state effect is independent of the listener
id and window passed. -/
def Key.applyOp (k : Key) (op : KeyOp) : Key :=
  match op with
  | KeyOp.press ev => (k.downHandler ev).1
  | KeyOp.release ev => (k.upHandler ev).1
  | KeyOp.sub => k
  | KeyOp.unsub => (k.unsubscribe 0 ⟨[]⟩).1

/-- A keyboard in an arbitrary concrete key configuration, used to
evaluate the aggregator at specific states in witnesses. -/
def kbOf (l r u d p dr prev : Bool) : PikaKeyboard :=
  { xDirection := 0, yDirection := 0, powerHit := 0,
    powerHitKeyIsDownPrevious := prev,
    leftKey := ⟨some "KeyD", l, !l⟩,
    rightKey := ⟨some "KeyG", r, !r⟩,
    upKey := ⟨some "KeyR", u, !u⟩,
    downKey := ⟨some "KeyF", d, !d⟩,
    powerHitKey := ⟨some "KeyZ", p, !p⟩,
    downRightKey := ⟨some "KeyV", dr, !dr⟩ }

lemma getInput_powerHitKey (kb : PikaKeyboard) :
    (kb.getInput).powerHitKey = kb.powerHitKey := rfl

lemma getInput_previous (kb : PikaKeyboard) :
    (kb.getInput).powerHitKeyIsDownPrevious = kb.powerHitKey.isDown := rfl

/-- C10: `getInput` writes only the snapshot fields `xDirection`,
`yDirection`, `powerHit` and the latch `powerHitKeyIsDownPrevious`; all
six `Key` fields (hence every key's `value`, `isDown`, `isUp`) are
unchanged by the call — the aggregator only reads key state. -/
theorem getInput_reads_only (kb : PikaKeyboard) :
    (kb.getInput).leftKey = kb.leftKey ∧
    (kb.getInput).rightKey = kb.rightKey ∧
    (kb.getInput).upKey = kb.upKey ∧
    (kb.getInput).downKey = kb.downKey ∧
    (kb.getInput).powerHitKey = kb.powerHitKey ∧
    (kb.getInput).downRightKey = kb.downRightKey ∧
    (kb.getInput).powerHitKeyIsDownPrevious = kb.powerHitKey.isDown :=
  ⟨rfl, rfl, rfl, rfl, rfl, rfl, rfl⟩

lemma getInput_powerHit_of_previous (kb : PikaKeyboard)
    (hp : kb.powerHitKeyIsDownPrevious = true) :
    (kb.getInput).powerHit = 0 := by
  simp [PikaKeyboard.getInput, hp]

lemma held_steady (m : Nat) (kb : PikaKeyboard)
    (hd : kb.powerHitKey.isDown = true)
    (hp : kb.powerHitKeyIsDownPrevious = true) :
    (PikaKeyboard.getInput^[m] kb).powerHitKey.isDown = true ∧
      (PikaKeyboard.getInput^[m] kb).powerHitKeyIsDownPrevious = true := by
  induction m generalizing kb with
  | zero => exact ⟨hd, hp⟩
  | succ n ih =>
    rw [Function.iterate_succ_apply]
    exact ih kb.getInput (by rw [getInput_powerHitKey]; exact hd)
      (by rw [getInput_previous]; exact hd)

/-- C1: if the action key has just transitioned from up to down (the
latch records it as up on the previous frame) and stays down, then the
first `getInput` call reports `powerHit = 1` and every later call in the
held streak reports `powerHit = 0`: at most one pulse per
press-hold-release cycle. -/
theorem edge_trigger_single_pulse (kb : PikaKeyboard)
    (hd : kb.powerHitKey.isDown = true)
    (hp : kb.powerHitKeyIsDownPrevious = false) :
    (PikaKeyboard.getInput^[1] kb).powerHit = 1 ∧
      ∀ n, 2 ≤ n → (PikaKeyboard.getInput^[n] kb).powerHit = 0 := by
  constructor
  · rw [Function.iterate_one]
    simp [PikaKeyboard.getInput, hd, hp]
  · intro n hn
    obtain ⟨m, rfl⟩ : ∃ m, n = m + 2 := ⟨n - 2, by omega⟩
    have h1 : (kb.getInput).powerHitKey.isDown = true := by
      rw [getInput_powerHitKey]; exact hd
    have h2 : (kb.getInput).powerHitKeyIsDownPrevious = true := by
      rw [getInput_previous]; exact hd
    have hs := held_steady m kb.getInput h1 h2
    have hiter : PikaKeyboard.getInput^[m + 2] kb
        = (PikaKeyboard.getInput^[m] kb.getInput).getInput := by
      rw [Function.iterate_succ_apply, Function.iterate_succ_apply']
    rw [hiter]
    exact getInput_powerHit_of_previous _ hs.2

/-- Witness for C1: a concrete keyboard with the action key freshly
pressed pulses on frame 1 and stays silent on frame 4. -/
theorem edge_trigger_single_pulse_witness :
    (PikaKeyboard.getInput^[1] (kbOf false false false false true false
        false)).powerHit = 1 ∧
      (PikaKeyboard.getInput^[4] (kbOf false false false false true false
        false)).powerHit = 0 :=
  ⟨(edge_trigger_single_pulse
      (kbOf false false false false true false false) rfl rfl).1,
    (edge_trigger_single_pulse
      (kbOf false false false false true false false) rfl rfl).2 4
      (by omega)⟩

/-- C2: whenever the left key and the right key are both down (whatever
the combo key's state), `getInput` resolves `xDirection` to `-1`: left
strictly overrides right and combo. -/
theorem left_priority (kb : PikaKeyboard)
    (hl : kb.leftKey.isDown = true) (_hr : kb.rightKey.isDown = true) :
    (kb.getInput).xDirection = -1 := by
  simp [PikaKeyboard.getInput, hl]

/-- Witness for C2 at a concrete state with left, right and combo all
pressed. -/
theorem left_priority_witness :
    ((kbOf true true false false false true false).getInput).xDirection
      = -1 :=
  left_priority (kbOf true true false false false true false) rfl rfl

/-- C4: with the combo (downRight) key down and the four plain direction
keys up, `getInput` yields `xDirection = 1 ∧ yDirection = 1`; with the
combo key up, plain down alone yields `yDirection = 1` but
`xDirection = 0`, and plain right alone yields `xDirection = 1` but
`yDirection = 0` — neither alone produces the combined combo effect. -/
theorem combo_alias (kb : PikaKeyboard) :
    (kb.downRightKey.isDown = true → kb.leftKey.isDown = false →
      kb.rightKey.isDown = false → kb.upKey.isDown = false →
      kb.downKey.isDown = false →
      (kb.getInput).xDirection = 1 ∧ (kb.getInput).yDirection = 1) ∧
    (kb.downRightKey.isDown = false → kb.downKey.isDown = true →
      kb.leftKey.isDown = false → kb.rightKey.isDown = false →
      kb.upKey.isDown = false →
      (kb.getInput).xDirection = 0 ∧ (kb.getInput).yDirection = 1) ∧
    (kb.downRightKey.isDown = false → kb.rightKey.isDown = true →
      kb.leftKey.isDown = false → kb.upKey.isDown = false →
      kb.downKey.isDown = false →
      (kb.getInput).xDirection = 1 ∧ (kb.getInput).yDirection = 0) := by
  refine ⟨fun hdr hl hr hu hd => ?_, fun hdr hd hl hr hu => ?_,
    fun hdr hr hl hu hd => ?_⟩ <;>
    simp [PikaKeyboard.getInput, hdr, hl, hr, hu, hd]

/-- Witness for C4: the three scenarios evaluated at concrete states —
combo alone, plain down alone, plain right alone. -/
theorem combo_alias_witness :
    (((kbOf false false false false false true false).getInput).xDirection
        = 1 ∧
      ((kbOf false false false false false true false).getInput).yDirection
        = 1) ∧
    (((kbOf false false false true false false false).getInput).xDirection
        = 0 ∧
      ((kbOf false false false true false false false).getInput).yDirection
        = 1) ∧
    (((kbOf false true false false false false false).getInput).xDirection
        = 1 ∧
      ((kbOf false true false false false false false).getInput).yDirection
        = 0) :=
  ⟨(combo_alias (kbOf false false false false false true false)).1
      rfl rfl rfl rfl rfl,
    (combo_alias (kbOf false false false true false false false)).2.1
      rfl rfl rfl rfl rfl,
    (combo_alias (kbOf false true false false false false false)).2.2
      rfl rfl rfl rfl rfl⟩

lemma applyOp_invariant (k : Key) (op : KeyOp)
    (hk : k.isDown = !k.isUp) :
    (k.applyOp op).isDown = !(k.applyOp op).isUp := by
  cases op with
  | press ev =>
    simp only [Key.applyOp, Key.downHandler]
    split <;> simp [hk]
  | release ev =>
    simp only [Key.applyOp, Key.upHandler]
    split <;> simp [hk]
  | sub => exact hk
  | unsub => rfl

/-- C5: along every sequence of key-lifecycle operations starting from
the constructor, `isDown = !isUp` holds — the two booleans are never
simultaneously equal. -/
theorem key_updown_invariant (value : Option String) (ops : List KeyOp) :
    (ops.foldl Key.applyOp (Key.construct value)).isDown
      = !(ops.foldl Key.applyOp (Key.construct value)).isUp := by
  have h : ∀ (l : List KeyOp) (k : Key), k.isDown = !k.isUp →
      (l.foldl Key.applyOp k).isDown = !(l.foldl Key.applyOp k).isUp := by
    intro l
    induction l with
    | nil => intro k hk; exact hk
    | cons op l ih =>
      intro k hk
      exact ih (k.applyOp op) (applyOp_invariant k op hk)
  exact h ops (Key.construct value) rfl

/-- C6: every run of `Key.subscribe` performs exactly two
`addEventListener` calls, the keyup (release) registration strictly
before the keydown (press) one; consequently, subscribing a key whose
listeners are not yet registered leaves the keyup entry before the
keydown entry in the window's listener list. -/
theorem subscribe_release_before_press (keyId : Nat) (w : Window) :
    (Key.subscribe keyId w).2
        = [⟨EvKind.keyup, keyId⟩, ⟨EvKind.keydown, keyId⟩] ∧
      ((⟨EvKind.keyup, keyId⟩ : ListenerEntry) ∉ w.listeners →
        (⟨EvKind.keydown, keyId⟩ : ListenerEntry) ∉ w.listeners →
        List.Sublist [⟨EvKind.keyup, keyId⟩, ⟨EvKind.keydown, keyId⟩]
          (Key.subscribe keyId w).1.listeners) := by
  refine ⟨rfl, fun hu hd => ?_⟩
  have h1 : ((w.addEventListener ⟨EvKind.keyup, keyId⟩).addEventListener
        ⟨EvKind.keydown, keyId⟩).listeners
      = w.listeners ++ [⟨EvKind.keyup, keyId⟩, ⟨EvKind.keydown, keyId⟩] := by
    simp only [Window.addEventListener]
    rw [if_neg hu]
    have hd2 : (⟨EvKind.keydown, keyId⟩ : ListenerEntry)
        ∉ w.listeners ++ [(⟨EvKind.keyup, keyId⟩ : ListenerEntry)] := by
      simp [hd]
    rw [if_neg hd2]
    simp
  show List.Sublist _ ((w.addEventListener _).addEventListener _).listeners
  rw [h1]
  exact List.sublist_append_right _ _

/-- Witness for C6: subscribing key 0 on an empty window. -/
theorem subscribe_release_before_press_witness :
    (Key.subscribe 0 ⟨[]⟩).2
        = [⟨EvKind.keyup, 0⟩, ⟨EvKind.keydown, 0⟩] ∧
      List.Sublist [⟨EvKind.keyup, 0⟩, ⟨EvKind.keydown, 0⟩]
        (Key.subscribe 0 ⟨[]⟩).1.listeners :=
  ⟨(subscribe_release_before_press 0 ⟨[]⟩).1,
    (subscribe_release_before_press 0 ⟨[]⟩).2 (by simp) (by simp)⟩

/-- C7: a key constructed with the disabled (`null`) code never matches
any event — both handlers return the key and the event unchanged — so it
stays permanently up across every sequence of lifecycle operations, and
`unsubscribe` leaves it in the same permanently-up state. -/
theorem disabled_key_permanently_up (ev : KeyEvent) (ops : List KeyOp)
    (keyId : Nat) (w : Window) :
    (Key.construct none).downHandler ev = (Key.construct none, ev) ∧
      (Key.construct none).upHandler ev = (Key.construct none, ev) ∧
      ops.foldl Key.applyOp (Key.construct none) = Key.construct none ∧
      ((Key.construct none).unsubscribe keyId w).1 = Key.construct none := by
  refine ⟨rfl, rfl, ?_, rfl⟩
  induction ops with
  | nil => rfl
  | cons op l ih =>
    have hstep : (Key.construct none).applyOp op = Key.construct none := by
      cases op <;> rfl
    rw [List.foldl_cons, hstep, ih]

/-- The listener list of a device freshly constructed on an empty window:
for each of the six keys, in construction order, the keyup registration
followed by the keydown registration. -/
def fullList : List ListenerEntry :=
  [⟨EvKind.keyup, 0⟩, ⟨EvKind.keydown, 0⟩, ⟨EvKind.keyup, 1⟩,
   ⟨EvKind.keydown, 1⟩, ⟨EvKind.keyup, 2⟩, ⟨EvKind.keydown, 2⟩,
   ⟨EvKind.keyup, 3⟩, ⟨EvKind.keydown, 3⟩, ⟨EvKind.keyup, 4⟩,
   ⟨EvKind.keydown, 4⟩, ⟨EvKind.keyup, 5⟩, ⟨EvKind.keydown, 5⟩]

/-- The removal sequence performed on the listener list by
`PikaKeyboard.unsubscribe`: for each key in source order, erase its
keydown registration, then its keyup registration. -/
def eraseChain (l : List ListenerEntry) : List ListenerEntry :=
  ([⟨EvKind.keydown, 0⟩, ⟨EvKind.keyup, 0⟩, ⟨EvKind.keydown, 1⟩,
    ⟨EvKind.keyup, 1⟩, ⟨EvKind.keydown, 2⟩, ⟨EvKind.keyup, 2⟩,
    ⟨EvKind.keydown, 3⟩, ⟨EvKind.keyup, 3⟩, ⟨EvKind.keydown, 4⟩,
    ⟨EvKind.keyup, 4⟩, ⟨EvKind.keydown, 5⟩,
    ⟨EvKind.keyup, 5⟩] : List ListenerEntry).foldl List.erase l

lemma new_window (l r u d p : String) (dr : Option String) :
    (PikaKeyboard.new l r u d p dr ⟨[]⟩).2 = ⟨fullList⟩ := rfl

lemma unsubscribe_window (kb : PikaKeyboard) (w : Window) :
    (kb.unsubscribe w).2 = ⟨eraseChain w.listeners⟩ := rfl

lemma eraseChain_fullList : eraseChain fullList = [] := by decide

lemma eraseChain_nil : eraseChain [] = [] := by decide

lemma dispatch_empty (kind : EvKind) (code : String) (kb : PikaKeyboard) :
    (dispatch kind code kb ⟨[]⟩).1 = kb := rfl

lemma getInput_neutral (kb : PikaKeyboard)
    (hl : kb.leftKey.isDown = false) (hr : kb.rightKey.isDown = false)
    (hu : kb.upKey.isDown = false) (hd : kb.downKey.isDown = false)
    (hp : kb.powerHitKey.isDown = false)
    (hdr : kb.downRightKey.isDown = false) :
    (kb.getInput).xDirection = 0 ∧ (kb.getInput).yDirection = 0 ∧
      (kb.getInput).powerHit = 0 := by
  refine ⟨?_, ?_, ?_⟩ <;> simp [PikaKeyboard.getInput, hl, hr, hu, hd, hp, hdr]

/-- C3: on a freshly constructed device `getInput` reports the neutral
snapshot, and after `unsubscribe()` every key is reset to `isDown =
false`, `isUp = true`, any further raw event leaves the device unchanged
(no listener of this device remains registered), and `getInput` reports
the neutral snapshot `xDirection = 0, yDirection = 0, powerHit = 0`. -/
theorem unsubscribed_neutral (kb : PikaKeyboard)
    (l r u d p : String) (dr : Option String) (kind : EvKind)
    (code : String) :
    (((PikaKeyboard.new l r u d p dr ⟨[]⟩).1.getInput).xDirection = 0 ∧
      ((PikaKeyboard.new l r u d p dr ⟨[]⟩).1.getInput).yDirection = 0 ∧
      ((PikaKeyboard.new l r u d p dr ⟨[]⟩).1.getInput).powerHit = 0) ∧
    ((kb.unsubscribe (PikaKeyboard.new l r u d p dr ⟨[]⟩).2).1.leftKey.isDown
        = false ∧
      (kb.unsubscribe (PikaKeyboard.new l r u d p dr ⟨[]⟩).2).1.leftKey.isUp
        = true ∧
      (kb.unsubscribe (PikaKeyboard.new l r u d p dr ⟨[]⟩).2).1.rightKey.isDown
        = false ∧
      (kb.unsubscribe (PikaKeyboard.new l r u d p dr ⟨[]⟩).2).1.rightKey.isUp
        = true ∧
      (kb.unsubscribe (PikaKeyboard.new l r u d p dr ⟨[]⟩).2).1.upKey.isDown
        = false ∧
      (kb.unsubscribe (PikaKeyboard.new l r u d p dr ⟨[]⟩).2).1.upKey.isUp
        = true ∧
      (kb.unsubscribe (PikaKeyboard.new l r u d p dr ⟨[]⟩).2).1.downKey.isDown
        = false ∧
      (kb.unsubscribe (PikaKeyboard.new l r u d p dr ⟨[]⟩).2).1.downKey.isUp
        = true ∧
      (kb.unsubscribe
          (PikaKeyboard.new l r u d p dr ⟨[]⟩).2).1.powerHitKey.isDown
        = false ∧
      (kb.unsubscribe
          (PikaKeyboard.new l r u d p dr ⟨[]⟩).2).1.powerHitKey.isUp
        = true ∧
      (kb.unsubscribe
          (PikaKeyboard.new l r u d p dr ⟨[]⟩).2).1.downRightKey.isDown
        = false ∧
      (kb.unsubscribe
          (PikaKeyboard.new l r u d p dr ⟨[]⟩).2).1.downRightKey.isUp
        = true) ∧
    (dispatch kind code
        (kb.unsubscribe (PikaKeyboard.new l r u d p dr ⟨[]⟩).2).1
        (kb.unsubscribe (PikaKeyboard.new l r u d p dr ⟨[]⟩).2).2).1
      = (kb.unsubscribe (PikaKeyboard.new l r u d p dr ⟨[]⟩).2).1 ∧
    ((kb.unsubscribe
        (PikaKeyboard.new l r u d p dr ⟨[]⟩).2).1.getInput.xDirection = 0 ∧
      (kb.unsubscribe
        (PikaKeyboard.new l r u d p dr ⟨[]⟩).2).1.getInput.yDirection = 0 ∧
      (kb.unsubscribe
        (PikaKeyboard.new l r u d p dr ⟨[]⟩).2).1.getInput.powerHit = 0) := by
  have hw : (kb.unsubscribe (PikaKeyboard.new l r u d p dr ⟨[]⟩).2).2
      = (⟨[]⟩ : Window) := by
    rw [unsubscribe_window, new_window]
    exact congrArg Window.mk eraseChain_fullList
  refine ⟨getInput_neutral _ rfl rfl rfl rfl rfl rfl,
    ⟨rfl, rfl, rfl, rfl, rfl, rfl, rfl, rfl, rfl, rfl, rfl, rfl⟩, ?_,
    getInput_neutral _ rfl rfl rfl rfl rfl rfl⟩
  rw [hw]
  exact dispatch_empty kind code _

/-- C9: `unsubscribe()` is idempotent — on a device whose listeners were
registered by construction, a second `unsubscribe()` returns exactly the
state produced by the first (keys all reset, window listener list empty,
and the repeated call changes nothing). -/
theorem unsubscribe_idempotent (kb : PikaKeyboard)
    (l r u d p : String) (dr : Option String) :
    ((kb.unsubscribe (PikaKeyboard.new l r u d p dr ⟨[]⟩).2).1.unsubscribe
        (kb.unsubscribe (PikaKeyboard.new l r u d p dr ⟨[]⟩).2).2)
      = kb.unsubscribe (PikaKeyboard.new l r u d p dr ⟨[]⟩).2 ∧
    ((kb.unsubscribe (PikaKeyboard.new l r u d p dr ⟨[]⟩).2).2).listeners
      = [] := by
  have hw : (kb.unsubscribe (PikaKeyboard.new l r u d p dr ⟨[]⟩).2).2
      = (⟨[]⟩ : Window) := by
    rw [unsubscribe_window, new_window]
    exact congrArg Window.mk eraseChain_fullList
  constructor
  · have h1 : ((kb.unsubscribe (PikaKeyboard.new l r u d p dr ⟨[]⟩).2).1.unsubscribe
        (kb.unsubscribe (PikaKeyboard.new l r u d p dr ⟨[]⟩).2).2).1
      = (kb.unsubscribe (PikaKeyboard.new l r u d p dr ⟨[]⟩).2).1 := rfl
    have h2 : ((kb.unsubscribe (PikaKeyboard.new l r u d p dr ⟨[]⟩).2).1.unsubscribe
        (kb.unsubscribe (PikaKeyboard.new l r u d p dr ⟨[]⟩).2).2).2
      = (kb.unsubscribe (PikaKeyboard.new l r u d p dr ⟨[]⟩).2).2 := by
      rw [unsubscribe_window, hw]
      exact congrArg Window.mk eraseChain_nil
    calc (kb.unsubscribe (PikaKeyboard.new l r u d p dr ⟨[]⟩).2).1.unsubscribe
          (kb.unsubscribe (PikaKeyboard.new l r u d p dr ⟨[]⟩).2).2
        = (((kb.unsubscribe (PikaKeyboard.new l r u d p dr ⟨[]⟩).2).1.unsubscribe
            (kb.unsubscribe (PikaKeyboard.new l r u d p dr ⟨[]⟩).2).2).1,
           ((kb.unsubscribe (PikaKeyboard.new l r u d p dr ⟨[]⟩).2).1.unsubscribe
            (kb.unsubscribe (PikaKeyboard.new l r u d p dr ⟨[]⟩).2).2).2) := rfl
      _ = kb.unsubscribe (PikaKeyboard.new l r u d p dr ⟨[]⟩).2 := by
          rw [h1, h2]
  · rw [hw]

/-- The scenario device of the spec: left="A", right="D", up="W",
down="S", powerHit="Space", no combo key, built on an empty window. -/
def scenarioDevice : PikaKeyboard × Window :=
  PikaKeyboard.new "A" "D" "W" "S" "Space" none ⟨[]⟩

/-- Scenario state after pressing "A". -/
def scenarioA : PikaKeyboard :=
  (dispatch EvKind.keydown "A" scenarioDevice.1 scenarioDevice.2).1

/-- Scenario state after the first frame capture. -/
def scenarioFrame1 : PikaKeyboard := scenarioA.getInput

/-- Scenario state after additionally pressing "Space". -/
def scenarioAS : PikaKeyboard :=
  (dispatch EvKind.keydown "Space" scenarioFrame1 scenarioDevice.2).1

/-- Scenario state after the second frame capture. -/
def scenarioFrame2 : PikaKeyboard := scenarioAS.getInput

/-- Scenario state after the third frame capture (Space still held). -/
def scenarioFrame3 : PikaKeyboard := scenarioFrame2.getInput

/-- Scenario state after releasing "A" and then "Space". -/
def scenarioReleased : PikaKeyboard :=
  (dispatch EvKind.keyup "Space"
    (dispatch EvKind.keyup "A" scenarioFrame3 scenarioDevice.2).1
    scenarioDevice.2).1

/-- Scenario state after the fourth frame capture. -/
def scenarioFrame4 : PikaKeyboard := scenarioReleased.getInput

/-- C8: the spec's end-to-end scenario — press "A" gives `{-1,0,0}`;
additionally press "Space" gives `{-1,0,1}`; the next frame with Space
still held gives `{-1,0,0}`; after releasing both keys the frame is
`{0,0,0}`. -/
theorem scenario_trace :
    scenarioFrame1.xDirection = -1 ∧ scenarioFrame1.yDirection = 0 ∧
      scenarioFrame1.powerHit = 0 ∧
    scenarioFrame2.xDirection = -1 ∧ scenarioFrame2.yDirection = 0 ∧
      scenarioFrame2.powerHit = 1 ∧
    scenarioFrame3.xDirection = -1 ∧ scenarioFrame3.yDirection = 0 ∧
      scenarioFrame3.powerHit = 0 ∧
    scenarioFrame4.xDirection = 0 ∧ scenarioFrame4.yDirection = 0 ∧
      scenarioFrame4.powerHit = 0 := by
  decide

end Pika
